import Mathlib

/-!
Verification of the patrol execution and control engine
(`patrol/executor.py` and `patrol/notifications/manager.py`).

Python string operations are embedded as executable functions on
`List Char` (the `data` field of a Lean `String`), so that every
definition reduces in the kernel and concrete instances can be settled
by `decide`.  Python `str.lower` is modelled by ASCII lowercasing,
which agrees with Python on every character of the configured phrase
sets (ASCII letters and Chinese characters, which have no case).
-/

namespace Patrol

/-- Whitespace test used by the model of Python `str.strip`. -/
def isWS (c : Char) : Bool := c.isWhitespace

/-- Model of Python `str.strip`: drop leading and trailing whitespace. -/
def trimChars (l : List Char) : List Char :=
  ((l.dropWhile isWS).reverse.dropWhile isWS).reverse

/-- Does `hay` start with `needle`?  Model of Python `str.startswith`,
used to build substring search. -/
def beginsWith : List Char → List Char → Bool
  | [], _ => true
  | _ :: _, [] => false
  | a :: as, b :: bs => a = b && beginsWith as bs

/-- Model of the Python substring test `needle in hay`. -/
def containsSub (needle : List Char) : List Char → Bool
  | [] => beginsWith needle []
  | c :: cs => beginsWith needle (c :: cs) || containsSub needle cs

/-- One step of Python `str.replace(needle, "")`: `fuel` bounds the scan
(the caller passes the length of `hay`, which suffices because every
step consumes at least one character). -/
def removeAllAux (needle : List Char) : Nat → List Char → List Char
  | 0, hay => hay
  | _ + 1, [] => []
  | fuel + 1, c :: cs =>
    if needle ≠ [] ∧ beginsWith needle (c :: cs) then
      removeAllAux needle fuel ((c :: cs).drop needle.length)
    else
      c :: removeAllAux needle fuel cs

/-- Model of Python `hay.replace(needle, "")`: delete every
(non-overlapping, left-to-right) occurrence of `needle` in `hay`. -/
def removeAll (needle hay : List Char) : List Char :=
  removeAllAux needle hay.length hay

/-- Model of Python `text.split("\n")`. -/
def splitOnNl : List Char → List (List Char)
  | [] => [[]]
  | c :: cs =>
    if c = '\n' then [] :: splitOnNl cs
    else
      match splitOnNl cs with
      | r :: rs => (c :: r) :: rs
      | [] => [[c]]

/-- ASCII lowercasing of one character; model of the per-character
effect of Python `str.lower` on the phrase sets used by the verdict
evaluator. -/
def lowerChar (c : Char) : Char := c.toLower

/-- Model of Python `str.lower` (ASCII range). -/
def lowerChars (l : List Char) : List Char := l.map lowerChar

/-- Failure phrase set of `PatrolExecutor._parse_agent_result`
(executor.py lines 427-435). -/
def failure_indicators : List String :=
  ["失败", "无法", "错误", "error", "failed", "cannot", "unable"]

/-- Success phrase set of `PatrolExecutor._parse_agent_result`
(executor.py lines 442-449). -/
def success_indicators : List String :=
  ["成功", "完成", "已显示", "success", "completed", "finished"]

/-- Embedding of `PatrolExecutor._parse_agent_result`
(executor.py lines 410-456): lowercase the agent output, return
`false` on any failure indicator, else `true` on any success
indicator, else `true` by default. -/
def parse_agent_result (agent_result : String) : Bool :=
  let result_lower := lowerChars agent_result.data
  if failure_indicators.any (fun ind => containsSub ind.data result_lower) then
    false
  else if success_indicators.any (fun ind => containsSub ind.data result_lower) then
    true
  else
    true

/-- Embedding of the lookup loop over `APP_PACKAGES`
(executor.py lines 367-372 and 485-490): find the first display name
whose package equals `expected_app`.  The table contents live outside
the analysed sources, so the table is a parameter. -/
def lookup_app_name (app_packages : List (String × String))
    (expected_app : String) : Option String :=
  match app_packages with
  | [] => none
  | (app_name, package) :: rest =>
    if package = expected_app then some app_name
    else lookup_app_name rest expected_app

/-- Embedding of the app matching shared by the `expected_app` quick
check (executor.py lines 354-383) and the AppOpened validation
(executor.py lines 472-502): direct name match, or package-name
resolution through the table.  The nonemptiness test on the resolved
name mirrors the Python truthiness test
`expected_app_name and current_app == expected_app_name`. -/
def app_opened_check (app_packages : List (String × String))
    (expected_app current_app : String) : Bool :=
  let app_name_match : Bool := decide (current_app = expected_app)
  let package_match : Bool :=
    match lookup_app_name app_packages expected_app with
    | some expected_app_name =>
        decide (expected_app_name ≠ "") && decide (current_app = expected_app_name)
    | none => false
  app_name_match || package_match

/-- Modelled from the spec: the bidirectional app-name/package-name
match claimed for AppOpened ("passes iff the resolved foreground app
matches `expectedApp` by name or by its resolved package-name
counterpart", through a "bidirectional lookup" table) — the foreground
app equals the expected identifier directly, or equals the counterpart
of the expected identifier reached through the table in either
direction.  Stated only for comparison with `app_opened_check`. -/
def bidirectional_app_match (app_packages : List (String × String))
    (expected_app current_app : String) : Bool :=
  decide (current_app = expected_app) ||
  app_packages.any (fun entry =>
    decide (entry.1 = expected_app) && decide (current_app = entry.2)) ||
  app_packages.any (fun entry =>
    decide (entry.2 = expected_app) && decide (current_app = entry.1))

/-- Validation kinds of `patrol/models.py` (`ValidationType`). -/
inductive ValidationType where
  | app_opened
  | text_contains
  | custom
deriving DecidableEq

/-- Embedding of `patrol/models.py` `ValidationRule`.  The custom
validator is a callable that either returns a boolean or raises; it is
modelled by its outcome, `Except` message on raise. -/
structure ValidationRule where
  name : String
  validation_type : ValidationType
  expected_app : Option String := none
  keywords : List String := []
  must_contain_all : Bool := false
  custom_validator : Option (Except String Bool) := none

/-- Outcome record produced by `_apply_validation`; only the fields
the engine consumes (`name`, `passed`) are modelled. -/
structure ValidationOutcome where
  name : String
  passed : Bool
deriving DecidableEq

/-- Embedding of `PatrolExecutor._apply_validation`
(executor.py lines 458-545).  For `app_opened` the required
`expected_app` parameter defaults to the empty string when absent
(absence is a fatal configuration error in `models.py`, never reached
at run time). -/
def apply_validation (app_packages : List (String × String))
    (current_app : String) (validation_rule : ValidationRule)
    (agent_result : String) : ValidationOutcome :=
  match validation_rule.validation_type with
  | ValidationType.app_opened =>
      { name := validation_rule.name,
        passed := app_opened_check app_packages
          (validation_rule.expected_app.getD "") current_app }
  | ValidationType.text_contains =>
      let keywords := validation_rule.keywords
      let found := keywords.filter (fun kw => containsSub kw.data agent_result.data)
      let passed : Bool :=
        if validation_rule.must_contain_all then
          decide (found.length = keywords.length)
        else decide (found.length > 0)
      { name := validation_rule.name, passed := passed }
  | ValidationType.custom =>
      match validation_rule.custom_validator with
      | some (Except.ok b) => { name := validation_rule.name, passed := b }
      | some (Except.error _) => { name := validation_rule.name, passed := false }
      | none => { name := validation_rule.name, passed := false }

/-- Embedding of `patrol/models.py` `TaskConfig` (the fields the
execution engine reads).  A `None`/empty keyword list are both falsy
in the Python guard, so keywords are a plain list. -/
structure TaskConfig where
  name : String
  description : String
  task : String
  success_criteria : String
  additional_validations : List ValidationRule := []
  expected_keywords : List String := []
  expected_app : Option String := none
  enabled : Bool := true
  timeout : Nat := 30

/-- Embedding of the per-task result dictionary built by
`PatrolExecutor._execute_task` (executor.py lines 293-302). -/
structure TaskResult where
  name : String
  description : String
  passed : Bool
  duration : Nat
  agent_result : Option String
  additional_validations : List ValidationOutcome
  error : Option String

/-- Embedding of `PatrolExecutor._execute_task`
(executor.py lines 277-391).  The agent call is modelled by its
outcome `agent_run` (`Except.error` when the call raises), the device
foreground app by `current_app`, and the wall-clock duration by
`elapsed`.  Note the Python quick checks at lines 344 and 354 are
gated on the local variable `passed` (the base verdict), not on the
possibly-downgraded `task_result["passed"]`; screenshot capture does
not affect any modelled field and is omitted. -/
def execute_task (app_packages : List (String × String))
    (task_config : TaskConfig) (agent_run : Except String String)
    (current_app : String) (elapsed : Nat) : TaskResult :=
  match agent_run with
  | Except.error e =>
      { name := task_config.name, description := task_config.description,
        passed := false, duration := elapsed, agent_result := none,
        additional_validations := [], error := some e }
  | Except.ok agent_result =>
      let passed := parse_agent_result agent_result
      let validations := task_config.additional_validations.map
        (fun rule => apply_validation app_packages current_app rule agent_result)
      let after_validations := if validations.any (fun v => !v.passed) then false else passed
      let keyword_match := task_config.expected_keywords.any
        (fun kw => containsSub kw.data agent_result.data)
      let after_keywords :=
        if passed && !task_config.expected_keywords.isEmpty && !keyword_match then false
        else after_validations
      let after_app :=
        match task_config.expected_app with
        | some expected_app =>
            if passed && decide (expected_app ≠ "") &&
               !(app_opened_check app_packages expected_app current_app) then false
            else after_keywords
        | none => after_keywords
      { name := task_config.name, description := task_config.description,
        passed := after_app, duration := elapsed,
        agent_result := some agent_result,
        additional_validations := validations, error := none }

/-- Per-task view consumed by the orchestrator loop: whether the task
is enabled, and the verdict `_execute_task` returns for it when it is
executed.  The verdict itself depends on the external agent and device
and is modelled in `execute_task`; the orchestrator loop consumes only
the boolean. -/
structure TaskEntry where
  enabled : Bool
  passed : Bool
deriving DecidableEq

/-- Counters of the results dictionary built by
`_execute_single_patrol` (executor.py lines 218-230), restricted to
the fields the claims and the scheduled loop consume; `tasks` records
the `passed` verdict of each executed task in order. -/
structure PatrolResults where
  total_tasks : Nat
  passed_tasks : Nat
  failed_tasks : Nat
  tasks : List Bool
deriving DecidableEq

/-- Embedding of the task loop of
`PatrolExecutor._execute_single_patrol` (executor.py lines 233-250):
skip disabled tasks, record each executed verdict, and stop at the
first failing task unless `continue_on_error` is set. -/
def single_patrol_loop (continue_on_error : Bool) : List TaskEntry → List Bool
  | [] => []
  | t :: rest =>
    if !t.enabled then single_patrol_loop continue_on_error rest
    else if t.passed then t.passed :: single_patrol_loop continue_on_error rest
    else if continue_on_error then t.passed :: single_patrol_loop continue_on_error rest
    else [t.passed]

/-- Embedding of `PatrolExecutor._execute_single_patrol`
(executor.py lines 197-275): `total_tasks` counts the enabled tasks up
front (lines 229-230); the pass/fail counters, incremented one by one
in the source loop, equal the counts over the executed verdicts. -/
def execute_single_patrol (continue_on_error : Bool)
    (tasks : List TaskEntry) : PatrolResults :=
  let executed := single_patrol_loop continue_on_error tasks
  { total_tasks := (tasks.filter (fun t => t.enabled)).length
    passed_tasks := (executed.filter (fun b => b)).length
    failed_tasks := (executed.filter (fun b => !b)).length
    tasks := executed }

/-- Embedding of `PatrolExecutor._wait_with_interrupt_check`
(executor.py lines 705-716) over discrete time: one unit of time per
1-second sleep slice; the cancellation flag `gexit` is a function of
time, re-checked before every slice.  Returns the time at which the
wait ends. -/
def wait_with_interrupt_check (gexit : Nat → Bool) : Nat → Nat → Nat
  | 0, t => t
  | remaining + 1, t =>
    if gexit t then t
    else wait_with_interrupt_check gexit remaining (t + 1)

/-- Embedding of the while loop of
`PatrolExecutor._execute_scheduled_patrol` (executor.py lines 133-193)
for the case where `max_runs` is set (truthy): `remaining` is
`max_runs` minus the completed-run count, and `runs k` is the result
of the k-th patrol run.  Runs are atomic with respect to the
cancellation flag and modelled as instantaneous: time, the argument of
`gexit`, advances only during the 1-second sleep slices of the
inter-run wait, so the several flag reads between two sleeps
(loop condition, post-run check, pre-wait check) read the same
instant.  Returns the `all_results` history. -/
def scheduled_loop (gexit : Nat → Bool) (runs : Nat → PatrolResults)
    (success_interval failure_interval : Nat) :
    Nat → Nat → Nat → List PatrolResults → List PatrolResults
  | 0, _, _, hist => hist
  | r + 1, t, run_idx, hist =>
    if gexit t then hist
    else
      let result := runs run_idx
      let hist2 := hist ++ [result]
      if gexit t then hist2
      else if r = 0 then hist2
      else
        let interval :=
          if result.passed_tasks = result.total_tasks then success_interval
          else failure_interval
        scheduled_loop gexit runs success_interval failure_interval r
          (wait_with_interrupt_check gexit interval t) (run_idx + 1) hist2

/-- Embedding of `PatrolExecutor._execute_scheduled_patrol`
(executor.py lines 116-195) with `max_runs` set: start the loop from a
clean state and return the run history. -/
def execute_scheduled_patrol (gexit : Nat → Bool) (runs : Nat → PatrolResults)
    (success_interval failure_interval max_runs : Nat) : List PatrolResults :=
  scheduled_loop gexit runs success_interval failure_interval max_runs 0 0 []

/-- Page record built by `_extract_pages_from_result`; `test_result`
is `none` while the corresponding dictionary key is absent. -/
structure DiscoveredPage where
  page_name : String
  tested : Bool
  test_result : Option String
deriving DecidableEq

/-- Page-discovery marker phrases (executor.py line 677). -/
def discovery_keywords : List String := ["发现页面", "进入页面", "打开页面"]

/-- Marker phrases stripped from a discovery line to obtain the page
name, in scan order (executor.py line 681). -/
def name_markers : List String :=
  ["发现页面：", "进入页面：", "打开页面：", "发现页面", "进入页面", "打开页面"]

/-- Test-passed marker phrases (executor.py line 688). -/
def pass_keywords : List String := ["测试通过", "测试成功", "测试完成"]

/-- Test-failed marker phrases (executor.py line 694). -/
def fail_keywords : List String := ["测试失败", "无法测试"]

/-- Every marker phrase the extractor reacts to. -/
def marker_keywords : List String :=
  discovery_keywords ++ pass_keywords ++ fail_keywords

/-- The inner keyword loop with break (executor.py lines 681-686):
strip the first matching marker phrase from the line to obtain the
page name. -/
def first_strip (line : List Char) : List String → Option (List Char)
  | [] => none
  | k :: rest =>
    if containsSub k.data line then some (trimChars (removeAll k.data line))
    else first_strip line rest

/-- Flush of a pending page guarded by a membership test
(executor.py lines 678-679 and 700-701):
`if current_page and current_page not in pages`. -/
def flush_page (pages : List DiscoveredPage) :
    Option DiscoveredPage → List DiscoveredPage
  | none => pages
  | some p => if p ∈ pages then pages else pages ++ [p]

/-- Embedding of the line loop of
`PatrolExecutor._extract_pages_from_result`
(executor.py lines 669-703): a state machine over trimmed lines with
state `current_page`.  A discovery line flushes the pending page and
opens a new one; a test-outcome line closes the pending page with the
outcome; the pending page is flushed at end of input. -/
def extract_pages_loop :
    List (List Char) → Option DiscoveredPage → List DiscoveredPage →
      List DiscoveredPage
  | [], current_page, pages => flush_page pages current_page
  | l :: rest, current_page, pages =>
    let line := trimChars l
    if discovery_keywords.any (fun k => containsSub k.data line) then
      let pages2 := flush_page pages current_page
      match first_strip line name_markers with
      | some nm =>
          extract_pages_loop rest
            (some { page_name := String.mk nm, tested := false, test_result := none })
            pages2
      | none => extract_pages_loop rest current_page pages2
    else
      match current_page with
      | some p =>
        if pass_keywords.any (fun k => containsSub k.data line) then
          extract_pages_loop rest none
            (pages ++ [{ p with tested := true, test_result := some "passed" }])
        else if fail_keywords.any (fun k => containsSub k.data line) then
          extract_pages_loop rest none
            (pages ++ [{ p with tested := true, test_result := some "failed" }])
        else
          extract_pages_loop rest (some p) pages
      | none => extract_pages_loop rest none pages

/-- Embedding of `PatrolExecutor._extract_pages_from_result`
(executor.py lines 654-703): split the agent output on newlines and
run the state machine.  The model is a total function, matching the
requirement that the extractor never raises on string input. -/
def extract_pages_from_result (agent_result : String) : List DiscoveredPage :=
  extract_pages_loop (splitOnNl agent_result.data) none []

/-- One enabled notification channel, identified by its class name and
modelled by the outcome of its `send_notification` call
(`Except.error` when the call raises). -/
structure Notifier where
  name : String
  send : Except String Bool

/-- The per-channel loop of
`NotificationManager.send_failure_notification`
(manager.py lines 78-87): record each channel outcome under its name,
recording `false` when the channel raised. -/
def notify_loop : List Notifier → List (String × Bool)
  | [] => []
  | n :: rest =>
    (n.name,
      match n.send with
      | Except.ok success => success
      | Except.error _ => false) :: notify_loop rest

/-- Embedding of `NotificationManager.send_failure_notification`
(manager.py lines 59-88): empty map when no channel is enabled or when
the summary has no failed task; otherwise one entry per enabled
channel. -/
def send_failure_notification (notifiers : List Notifier)
    (failed_tasks : Nat) : List (String × Bool) :=
  if notifiers.isEmpty then []
  else if failed_tasks = 0 then []
  else notify_loop notifiers

end Patrol

open Patrol

/-- C1: any agent output that contains (case-insensitively) a configured
failure phrase is judged failed, even when a success phrase is also
present: the failure scan runs first and short-circuits. -/
theorem c1_failure_phrase_forces_fail (out : String) (ind : String)
    (hmem : ind ∈ failure_indicators)
    (hsub : containsSub ind.data (lowerChars out.data) = true) :
    parse_agent_result out = false := by
  unfold parse_agent_result
  have hany : failure_indicators.any
      (fun ind => containsSub ind.data (lowerChars out.data)) = true :=
    List.any_eq_true.mpr ⟨ind, hmem, hsub⟩
  simp only [hany, if_true]

/-- Witness for C1: the output "Task FAILED but finished with success"
contains the failure phrase "failed" case-insensitively (and also the
success phrases "success" and "finished"), and is judged failed. -/
theorem c1_witness :
    "failed" ∈ failure_indicators ∧
    containsSub "failed".data (lowerChars "Task FAILED but finished with success".data) = true ∧
    parse_agent_result "Task FAILED but finished with success" = false :=
  ⟨by decide, by decide,
    c1_failure_phrase_forces_fail "Task FAILED but finished with success" "failed"
      (by decide) (by decide)⟩

/-- C2: an agent output that contains (case-insensitively) no failure
phrase and no success phrase is judged passed by default. -/
theorem c2_default_pass (out : String)
    (hfail : ∀ ind ∈ failure_indicators,
      containsSub ind.data (lowerChars out.data) = false)
    (hsucc : ∀ ind ∈ success_indicators,
      containsSub ind.data (lowerChars out.data) = false) :
    parse_agent_result out = true := by
  unfold parse_agent_result
  have h1 : failure_indicators.any
      (fun ind => containsSub ind.data (lowerChars out.data)) = false := by
    simp only [List.any_eq_false]
    intro ind hmem
    simp [hfail ind hmem]
  have h2 : success_indicators.any
      (fun ind => containsSub ind.data (lowerChars out.data)) = false := by
    simp only [List.any_eq_false]
    intro ind hmem
    simp [hsucc ind hmem]
  simp only [h1, h2]
  simp

/-- Witness for C2: the output "打开了页面" contains no configured
failure or success phrase and is judged passed. -/
theorem c2_witness :
    (∀ ind ∈ failure_indicators,
      containsSub ind.data (lowerChars "打开了页面".data) = false) ∧
    parse_agent_result "打开了页面" = true :=
  ⟨by decide, c2_default_pass "打开了页面" (by decide) (by decide)⟩

/-- Counterexample for C3: with the table entry
("NewsApp", "com.example.news"), expected app given as the display
name "NewsApp" and the foreground reported as the package name
"com.example.news", the bidirectional match demanded by the claim
holds, yet the code fails the check: the code resolves only the
package-name → display-name direction. -/
theorem c3_counterexample :
    bidirectional_app_match [("NewsApp", "com.example.news")]
      "NewsApp" "com.example.news" = true ∧
    app_opened_check [("NewsApp", "com.example.news")]
      "NewsApp" "com.example.news" = false := by
  decide

/-- C3 (amended): the AppOpened validation and the expected_app quick
check pass iff the foreground app equals the expected identifier
directly, or the expected identifier is a package name in the table
whose first associated display name is nonempty and equals the
foreground app.  The display-name → package-name direction is not
supported. -/
theorem c3_amended_app_match (app_packages : List (String × String))
    (expected_app current_app : String) :
    app_opened_check app_packages expected_app current_app = true ↔
      (current_app = expected_app ∨
        ∃ nm, lookup_app_name app_packages expected_app = some nm ∧
          nm ≠ "" ∧ current_app = nm) := by
  unfold app_opened_check
  cases h : lookup_app_name app_packages expected_app with
  | none => simp [h]
  | some nm =>
    simp only [h, Bool.or_eq_true, decide_eq_true_eq, Bool.and_eq_true]
    constructor
    · rintro (hc | ⟨h1, h2⟩)
      · exact Or.inl hc
      · exact Or.inr ⟨nm, rfl, h1, h2⟩
    · rintro (hc | ⟨nm2, hnm2, h1, h2⟩)
      · exact Or.inl hc
      · cases Option.some.inj hnm2
        exact Or.inr ⟨h1, h2⟩

/-- C7: when the agent call raises, the engine records the message in
the error field, forces the verdict to failed, and still returns a
well-formed task result carrying the given duration; the model of
the handler is total, so the exception never propagates. -/
theorem c7_agent_exception_recovered (app_packages : List (String × String))
    (task_config : TaskConfig) (e : String) (current_app : String)
    (elapsed : Nat) :
    (execute_task app_packages task_config (Except.error e) current_app
        elapsed).passed = false ∧
    (execute_task app_packages task_config (Except.error e) current_app
        elapsed).error = some e ∧
    (execute_task app_packages task_config (Except.error e) current_app
        elapsed).duration = elapsed ∧
    (execute_task app_packages task_config (Except.error e) current_app
        elapsed).name = task_config.name :=
  ⟨rfl, rfl, rfl, rfl⟩

/-- C10: the expected_keywords quick check matches case-sensitively
against the raw output while the base verdict lowercases first: on the
output "Success" with the keyword "SUCCESS" (equal to the substring
"Success" of the output up to letter case) the base verdict is pass
but the task is marked failed by the keyword check. -/
theorem c10_keyword_case_sensitivity :
    lowerChars "SUCCESS".data = lowerChars "Success".data ∧
    containsSub "Success".data "Success".data = true ∧
    parse_agent_result "Success" = true ∧
    (execute_task []
      { name := "t", description := "", task := "", success_criteria := "",
        expected_keywords := ["SUCCESS"] }
      (Except.ok "Success") "" 0).passed = false := by
  decide

/-- Helper: the orchestrator loop never looks at disabled tasks — it
computes the same executed list on the enabled sublist. -/
theorem single_patrol_loop_filter_enabled (c : Bool) (tasks : List TaskEntry) :
    single_patrol_loop c tasks =
      single_patrol_loop c (tasks.filter (fun t => t.enabled)) := by
  induction tasks with
  | nil => rfl
  | cons t rest ih =>
    cases he : t.enabled with
    | false => simp [single_patrol_loop, he, List.filter_cons, ih]
    | true => simp [single_patrol_loop, he, List.filter_cons, ih]

/-- C4: with `continue_on_error = false` and four enabled tasks of
which the second fails (all others pass), exactly two tasks are
executed, `total_tasks` reports the enabled count 4, and one task each
is counted passed and failed; disabled tasks are never executed or
counted. -/
theorem c4_stop_on_first_failure (tasks : List TaskEntry)
    (h : tasks.filter (fun t => t.enabled) =
      [⟨true, true⟩, ⟨true, false⟩, ⟨true, true⟩, ⟨true, true⟩]) :
    (execute_single_patrol false tasks).tasks.length = 2 ∧
    (execute_single_patrol false tasks).total_tasks = 4 ∧
    (execute_single_patrol false tasks).passed_tasks = 1 ∧
    (execute_single_patrol false tasks).failed_tasks = 1 := by
  unfold execute_single_patrol
  rw [single_patrol_loop_filter_enabled, h]
  decide

/-- Witness for C4: a concrete five-task list whose second entry is
disabled, whose enabled sublist is pass, fail, pass, pass. -/
theorem c4_witness :
    (execute_single_patrol false
      [⟨true, true⟩, ⟨false, true⟩, ⟨true, false⟩, ⟨true, true⟩,
        ⟨true, true⟩]).tasks.length = 2 ∧
    (execute_single_patrol false
      [⟨true, true⟩, ⟨false, true⟩, ⟨true, false⟩, ⟨true, true⟩,
        ⟨true, true⟩]).total_tasks = 4 ∧
    (execute_single_patrol false
      [⟨true, true⟩, ⟨false, true⟩, ⟨true, false⟩, ⟨true, true⟩,
        ⟨true, true⟩]).passed_tasks = 1 ∧
    (execute_single_patrol false
      [⟨true, true⟩, ⟨false, true⟩, ⟨true, false⟩, ⟨true, true⟩,
        ⟨true, true⟩]).failed_tasks = 1 :=
  c4_stop_on_first_failure
    [⟨true, true⟩, ⟨false, true⟩, ⟨true, false⟩, ⟨true, true⟩, ⟨true, true⟩]
    (by decide)

/-- Helper: with the cancellation flag never set, the scheduled loop
appends exactly `remaining` run results to the history. -/
theorem scheduled_loop_length_nocancel (runs : Nat → PatrolResults)
    (si fi : Nat) :
    ∀ (remaining t run_idx : Nat) (hist : List PatrolResults),
      (scheduled_loop (fun _ => false) runs si fi remaining t run_idx
        hist).length = hist.length + remaining := by
  intro remaining
  induction remaining with
  | zero =>
    intro t run_idx hist
    simp [scheduled_loop]
  | succ r ih =>
    intro t run_idx hist
    by_cases hr : r = 0
    · subst hr
      simp [scheduled_loop]
    · simp only [scheduled_loop, Bool.false_eq_true, if_false, hr]
      rw [ih]
      simp only [List.length_append, List.length_singleton]
      omega

/-- C5: with `max_runs` set to a positive `n` and cancellation never
requested, the scheduled controller terminates with exactly `n` run
summaries in its history. -/
theorem c5_max_runs_terminates (n : Nat) (runs : Nat → PatrolResults)
    (si fi : Nat) (_hn : 0 < n) :
    (execute_scheduled_patrol (fun _ => false) runs si fi n).length = n := by
  unfold execute_scheduled_patrol
  rw [scheduled_loop_length_nocancel]
  simp

/-- Witness for C5: `max_runs = 3` with no cancellation produces a
history of exactly 3 runs. -/
theorem c5_witness :
    0 < 3 ∧
    (execute_scheduled_patrol (fun _ => false)
      (fun _ => { total_tasks := 1, passed_tasks := 1, failed_tasks := 0,
                  tasks := [true] }) 5 9 3).length = 3 :=
  ⟨by decide,
    c5_max_runs_terminates 3
      (fun _ => { total_tasks := 1, passed_tasks := 1, failed_tasks := 0,
                  tasks := [true] }) 5 9 (by decide)⟩

/-- C6: once the (monotone) cancellation flag is set at time `T`, the
inter-run wait stops sleeping no later than the first per-slice check
at or after `T` (it never sleeps past `max t T`, so a pending
cancellation is observed within one 1-second slice), and the outer
scheduled loop, reaching its condition at any time at or after `T`,
exits at once without starting another run. -/
theorem c6_cancellation_responsive (gexit : Nat → Bool)
    (mono : ∀ a b : Nat, a ≤ b → gexit a = true → gexit b = true)
    (T : Nat) (hT : gexit T = true) :
    (∀ remaining t, wait_with_interrupt_check gexit remaining t ≤ max t T) ∧
    (∀ (runs : Nat → PatrolResults) (si fi remaining run_idx t : Nat)
        (hist : List PatrolResults), T ≤ t →
      scheduled_loop gexit runs si fi remaining t run_idx hist = hist) := by
  constructor
  · intro remaining
    induction remaining with
    | zero =>
      intro t
      simp [wait_with_interrupt_check]
    | succ r ih =>
      intro t
      simp only [wait_with_interrupt_check]
      by_cases hg : gexit t = true
      · simp only [hg, if_true]
        exact le_max_left t T
      · have ht : t < T := by
          by_contra hge
          push_neg at hge
          exact hg (mono T t hge hT)
        simp only [hg, if_false]
        refine le_trans (ih (t + 1)) (max_le ?_ ?_)
        · exact le_trans (by omega) (le_max_right t T)
        · exact le_max_right t T
  · intro runs si fi remaining run_idx t hist hTt
    have hg : gexit t = true := mono T t hTt hT
    cases remaining with
    | zero => simp [scheduled_loop]
    | succ r => simp [scheduled_loop, hg]

/-- Witness for C6: the flag set from time 2 onward stops a 5-second
wait started at time 0 within the slice boundary, and a scheduled loop
resumed at time 3 starts no further run. -/
theorem c6_witness :
    wait_with_interrupt_check (fun n => decide (2 ≤ n)) 5 0 ≤ max 0 2 ∧
    scheduled_loop (fun n => decide (2 ≤ n))
      (fun _ => { total_tasks := 1, passed_tasks := 0, failed_tasks := 1,
                  tasks := [false] }) 7 9 4 3 0 [] = [] := by
  have h := c6_cancellation_responsive (fun n => decide (2 ≤ n))
    (fun a b hab ha => decide_eq_true (le_trans (of_decide_eq_true ha) hab))
    2 (by decide)
  exact ⟨h.1 5 0,
    h.2 (fun _ => { total_tasks := 1, passed_tasks := 0, failed_tasks := 1,
                    tasks := [false] }) 7 9 4 0 3 [] (by decide)⟩

/-- Helper: each entry of the dispatcher loop output is determined by
the channel at the same position alone. -/
theorem notify_loop_getElem (notifiers : List Notifier) (i : Nat) :
    (notify_loop notifiers)[i]? =
      (notifiers[i]?).map (fun n =>
        (n.name,
          match n.send with
          | Except.ok success => success
          | Except.error _ => false)) := by
  induction notifiers generalizing i with
  | nil => simp [notify_loop]
  | cons n rest ih =>
    cases i with
    | zero => simp [notify_loop]
    | succ j => simp [notify_loop, ih]

/-- C8: the dispatcher returns the empty map when the summary has no
failed task or no channel is enabled; otherwise it records one entry
per enabled channel, position by position, with a raising channel
recorded as `false` — each entry depends only on its own channel, so
one channel's exception never alters another's recorded result. -/
theorem c8_dispatcher_isolation (notifiers : List Notifier)
    (failed_tasks : Nat) :
    (failed_tasks = 0 →
      send_failure_notification notifiers failed_tasks = []) ∧
    (notifiers = [] →
      send_failure_notification notifiers failed_tasks = []) ∧
    (failed_tasks ≠ 0 → ∀ i : Nat,
      (send_failure_notification notifiers failed_tasks)[i]? =
        (notifiers[i]?).map (fun n =>
          (n.name,
            match n.send with
            | Except.ok success => success
            | Except.error _ => false))) := by
  refine ⟨?_, ?_, ?_⟩
  · intro h
    simp [send_failure_notification, h]
  · intro h
    subst h
    simp [send_failure_notification]
  · intro h i
    by_cases hn : notifiers.isEmpty
    · have hnil : notifiers = [] := List.isEmpty_iff.mp hn
      subst hnil
      simp [send_failure_notification]
    · simp [send_failure_notification, hn, h, notify_loop_getElem]

/-- Witness for C8: with no failures the map is empty; with two
channels of which the second raises, the first is recorded `true` and
the second `false`. -/
theorem c8_witness :
    send_failure_notification
      [⟨"LarkNotifier", Except.ok true⟩,
        ⟨"WebhookNotifier", Except.error "boom"⟩] 0 = [] ∧
    (send_failure_notification
      [⟨"LarkNotifier", Except.ok true⟩,
        ⟨"WebhookNotifier", Except.error "boom"⟩] 2)[0]? =
      some ("LarkNotifier", true) ∧
    (send_failure_notification
      [⟨"LarkNotifier", Except.ok true⟩,
        ⟨"WebhookNotifier", Except.error "boom"⟩] 2)[1]? =
      some ("WebhookNotifier", false) := by
  have h2 := c8_dispatcher_isolation
    [⟨"LarkNotifier", Except.ok true⟩,
      ⟨"WebhookNotifier", Except.error "boom"⟩] 2
  have h0 := c8_dispatcher_isolation
    [⟨"LarkNotifier", Except.ok true⟩,
      ⟨"WebhookNotifier", Except.error "boom"⟩] 0
  exact ⟨h0.1 rfl, h2.2.2 (by decide) 0, h2.2.2 (by decide) 1⟩

/-- Helper: with no pending page and no discovery marker on any line,
the extractor state machine leaves the page list unchanged. -/
theorem extract_pages_loop_no_discovery (lines : List (List Char))
    (pages : List DiscoveredPage)
    (h : ∀ l ∈ lines,
      discovery_keywords.any (fun k => containsSub k.data (trimChars l)) = false) :
    extract_pages_loop lines none pages = pages := by
  induction lines with
  | nil => simp [extract_pages_loop, flush_page]
  | cons l rest ih =>
    have hl := h l (by simp)
    simp only [extract_pages_loop, hl, Bool.false_eq_true, if_false]
    exact ih (fun l2 hl2 => h l2 (by simp [hl2]))

/-- C9: the extractor is total on every input string (it is a Lean
function, so it never raises); on text none of whose lines carries a
marker phrase it returns the empty list; and a page-discovery line
followed immediately by another page-discovery line, with no
intervening test-outcome line, still emits the first page, untested. -/
theorem c9_extractor_robust (text : String) (l1 l2 n1 n2 : List Char) :
    ((∀ l ∈ splitOnNl text.data, ∀ k ∈ marker_keywords,
        containsSub k.data (trimChars l) = false) →
      extract_pages_from_result text = []) ∧
    (discovery_keywords.any (fun k => containsSub k.data (trimChars l1)) = true →
     first_strip (trimChars l1) name_markers = some n1 →
     discovery_keywords.any (fun k => containsSub k.data (trimChars l2)) = true →
     first_strip (trimChars l2) name_markers = some n2 →
     (extract_pages_loop [l1, l2] none [])[0]? =
        some { page_name := String.mk n1, tested := false,
               test_result := none }) := by
  constructor
  · intro h
    unfold extract_pages_from_result
    apply extract_pages_loop_no_discovery
    intro l hl
    rw [List.any_eq_false]
    intro k hk
    simp only [Bool.not_eq_true]
    exact h l hl k (by simp [marker_keywords, hk])
  · intro hd1 hs1 hd2 hs2
    simp only [extract_pages_loop, hd1, hs1, hd2, hs2, if_true, flush_page]
    rw [if_neg (List.not_mem_nil _)]
    simp only [List.nil_append]
    split <;> simp

/-- Witness for C9: the markerless text "hello\nworld" yields no page,
and two consecutive discovery lines emit the first page untested. -/
theorem c9_witness :
    extract_pages_from_result "hello\nworld" = [] ∧
    (extract_pages_loop ["发现页面：首页".data, "发现页面：设置".data]
        none [])[0]? =
      some { page_name := "首页", tested := false, test_result := none } := by
  have h := c9_extractor_robust "hello\nworld" "发现页面：首页".data
    "发现页面：设置".data "首页".data "设置".data
  exact ⟨h.1 (by decide), h.2 (by decide) (by decide) (by decide) (by decide)⟩
